import Mathlib

/-!
Shallow embedding of the Aurora telemetry core (src/src/AuroraApp.jsx):
the Telemetry Normalizer (`parseNOAAData`), the Synthetic Generator
(`generateSimulatedTimeline`), the Timeline Player (`fetchLive`,
`getCurrent`, `advance`, `togglePause`), the per-tick Smoothed State and
intensity derivation from `buildScene`'s animate loop, the trail-pass
max-blend algebra, and the Sonification Engine's state machine
(`SonEngine.start` / `update` bell and pluck gates).

JS numbers are embedded as `ℚ` (exact arithmetic; every operation the
claims touch is +, -, *, /, min, max, floor on finite values).  A cell
that `parseFloat` turns into `NaN` (non-numeric or missing) is embedded
as `none : Option ℚ`; the JS idiom `parseFloat(c) || d` (which yields
`d` both for `NaN` and for `0`, since both are falsy) is `parsedOr`.
A JS `Map` built by sequential `set` calls is embedded as the list of
`set` calls folded left-to-right (last write wins), with `get`/`has`
as `lookupMap`.  Timestamp strings stay `String`; `substring(0, 16)`
is `String.take 16`.
-/

/-- One instant of telemetry, field-for-field the object pushed by
`parseNOAAData` / `generateSimulatedTimeline` (`by` is a Lean keyword,
so the `by` component is named `byv`). -/
structure TelemetryPoint where
  time : String
  speed : ℚ
  density : ℚ
  temp : ℚ
  bt : ℚ
  bz : ℚ
  bx : ℚ
  byv : ℚ
  kp : ℚ
  xray : ℚ
deriving DecidableEq, Repr

/-- Default point used only to give `List.getD` a total type; the player
never actually reads it (indices are clamped below the length). -/
def dfltPoint : TelemetryPoint :=
  ⟨"", 0, 0, 0, 0, 0, 0, 0, 0, 0⟩

/-- Result of `parseFloat` on one cell: `none` models `NaN`
(non-numeric or missing cell). -/
def Cell : Type := Option ℚ
deriving instance DecidableEq for Cell

/-- JS `parseFloat(c) || d`: `NaN` and `0` are both falsy, so either
yields the default `d`. -/
def parsedOr (c : Cell) (d : ℚ) : ℚ :=
  match c with
  | none => d
  | some q => if q = 0 then d else q

/-- JS `v || d` on an already-numeric value (only `0` is falsy). -/
def orD (v d : ℚ) : ℚ := if v = 0 then d else v

/-- One row of the plasma payload: `r[0]` time tag (none models a null
row, or a missing/empty tag — both are skipped by `!r || !r[0]`),
`r[1]` density, `r[2]` speed, `r[3]` temperature. -/
structure PlasmaRow where
  time_tag : Option String
  density : Cell
  speed : Cell
  temp : Cell

/-- One row of the mag payload: `r[0]` time tag, `r[1]`..`r[4]` are
bx_gsm, by_gsm, bz_gsm, bt. -/
structure MagRow where
  time_tag : Option String
  bx : Cell
  byv : Cell
  bz : Cell
  bt : Cell

/-- One row of the planetary K-index payload: `r[0]` time tag, `r[1]`
kp_index. -/
structure KpRow where
  time_tag : Option String
  kp_index : Cell

/-- One entry of the x-ray flux payload (array of keyed objects). -/
structure XrayRow where
  time_tag : Option String
  flux : Cell

/-- The value stored in `magMap` for one minute key. -/
structure MagVal where
  bx : ℚ
  byv : ℚ
  bz : ℚ
  bt : ℚ
deriving DecidableEq, Repr

/-- `Map.get` on a JS `Map` built by the listed `set` calls in order:
the last `set` for a key wins. -/
def lookupMap {V : Type} (entries : List (String × V)) (k : String) : Option V :=
  entries.foldl (fun acc e => if e.1 = k then some e.2 else acc) none

/-- The `set` calls building `magMap`: rows after the header with a
present time tag, keyed by the minute prefix, each field
`parseFloat(cell) || 0`. -/
def magEntries (mag : List MagRow) : List (String × MagVal) :=
  (mag.drop 1).filterMap (fun r =>
    r.time_tag.map (fun ts =>
      (ts.take 16, ⟨parsedOr r.bx 0, parsedOr r.byv 0, parsedOr r.bz 0, parsedOr r.bt 0⟩)))

/-- The `set` calls building `kpMap`. -/
def kpEntries (kp : List KpRow) : List (String × ℚ) :=
  (kp.drop 1).filterMap (fun r =>
    r.time_tag.map (fun ts => (ts.take 16, parsedOr r.kp_index 0)))

/-- The `set` calls building `xrayMap`; the payload is `none` when the
response is not an array (`Array.isArray` guard), leaving the map
empty.  The x-ray loop is `for..of`, so no header row is skipped. -/
def xrayEntries (xray : Option (List XrayRow)) : List (String × ℚ) :=
  (xray.getD []).filterMap (fun r =>
    r.time_tag.map (fun ts => (ts.take 16, parsedOr r.flux 0)))

/-- The main loop of `parseNOAAData` over the plasma rows, threading the
carried-forward `lastKp` and `lastXray` accumulators.  A row with an
absent time tag is skipped.  The mag lookup falls back to the fixed
record `{bx: 0, by: 0, bz: 0, bt: 5}` on a miss; the kp and xray
lookups fall back to the carried accumulator, which is updated exactly
when the key is present (`kpMap.has(key)`). -/
def plasmaLoop (magGet : String → Option MagVal) (kpGet xrayGet : String → Option ℚ) :
    List PlasmaRow → ℚ → ℚ → List TelemetryPoint
  | [], _, _ => []
  | r :: rs, lastKp, lastXray =>
    match r.time_tag with
    | none => plasmaLoop magGet kpGet xrayGet rs lastKp lastXray
    | some ts =>
      let key := ts.take 16
      let speed := parsedOr r.speed 400
      let density := parsedOr r.density 5
      let temp := parsedOr r.temp 100000
      let m := (magGet key).getD ⟨0, 0, 0, 5⟩
      let k := (kpGet key).getD lastKp
      let x := (xrayGet key).getD lastXray
      ⟨ts, speed, density, temp, m.bt, m.bz, m.bx, m.byv, k, x⟩ ::
        plasmaLoop magGet kpGet xrayGet rs k x

/-- `parseNOAAData(plasma, mag, kp, xray)`: build the three auxiliary
maps, then walk the plasma rows (skipping the header) starting from the
domain defaults `lastKp = 2`, `lastXray = 1e-7`. -/
def parseNOAAData (plasma : List PlasmaRow) (mag : List MagRow) (kp : List KpRow)
    (xray : Option (List XrayRow)) : List TelemetryPoint :=
  plasmaLoop (lookupMap (magEntries mag)) (lookupMap (kpEntries kp))
    (lookupMap (xrayEntries xray)) (plasma.drop 1) 2 (1 / 10000000)

/-- The minute keys of the plasma rows that survive the
`!r || !r[0]` skip, in order; emitted point `i` corresponds to key `i`. -/
def validKeys (rows : List PlasmaRow) : List String :=
  rows.filterMap (fun r => r.time_tag.map (fun ts => ts.take 16))

/-- The carry-forward rule as the spec words it: starting from the
domain default, each observed auxiliary reading replaces the carried
value, and a miss keeps it; position `i` sees the most recent
observation at or before key `i`, or the default if none was ever
seen. -/
def carried (g : String → Option ℚ) : ℚ → List String → ℕ → ℚ
  | dflt, [], _ => dflt
  | dflt, key :: _, 0 => (g key).getD dflt
  | dflt, key :: ks, i + 1 => carried g ((g key).getD dflt) ks i

/-! ### Synthetic Generator -/

/-- One random storm influence of `generateSimulatedTimeline`. -/
structure Storm where
  center : ℚ
  width : ℚ
  intensity : ℚ

/-- The running per-field values of the biased random walk. -/
structure SimState where
  speed : ℚ
  density : ℚ
  temp : ℚ
  bt : ℚ
  bz : ℚ
  bx : ℚ
  byv : ℚ
  kp : ℚ
  xray : ℚ

/-- `Math.max(lo, Math.min(hi, v))`. -/
def clampQ (lo hi v : ℚ) : ℚ := max lo (min hi v)

/-- `stormFactor` at point `i`: over all storms within unit normalized
distance, the largest parabolic bump `(1 - dist²) * intensity`,
starting from `0`. -/
def stormFactor (i : ℚ) (storms : List Storm) : ℚ :=
  storms.foldl
    (fun acc s =>
      let dist := |i - s.center| / s.width
      if dist < 1 then max acc ((1 - dist * dist) * s.intensity) else acc) 0

/-- One iteration of the generator loop at point `i`.  `rnd` is the
stream of `Math.random()` results in call order; `base` is how many
draws the storm construction consumed; the nine draws of iteration `i`
are `rnd (base + 9*i + 0) .. rnd (base + 9*i + 8)` in source order.
`fmt` renders the absolute millisecond timestamp the way
`toISOString().replace("T", " ").substring(0, 19)` does. -/
def simStep (rnd : ℕ → ℚ) (base : ℕ) (storms : List Storm) (nowMs : ℚ)
    (fmt : ℚ → String) (i : ℕ) (s : SimState) : SimState × TelemetryPoint :=
  let t : ℚ := (i : ℚ) / 5000
  let dateMs := (nowMs - 7 * 24 * 60 * 60 * 1000) + t * (7 * 24 * 60 * 60 * 1000)
  let sf := stormFactor (i : ℚ) storms
  let r := fun j => rnd (base + 9 * i + j)
  let speed := clampQ 280 900 (s.speed + (r 0 - 0.48) * 8 + sf * 15)
  let density := clampQ 0.5 40 (s.density + (r 1 - 0.48) * 0.8 + sf * 2)
  let temp := clampQ 20000 500000 (s.temp + (r 2 - 0.5) * 8000)
  let bt := clampQ 1 35 (s.bt + (r 3 - 0.48) * 0.6 + sf * 1.5)
  let bz := clampQ (-25) 15 (s.bz + (r 4 - 0.52) * 1.2 - sf * 2)
  let bx := clampQ (-12) 12 (s.bx + (r 5 - 0.5) * 0.8)
  let byv := clampQ (-12) 12 (s.byv + (r 6 - 0.5) * 0.8)
  let kp := clampQ 0 9 (s.kp + (r 7 - 0.48) * 0.15 + sf * 0.4)
  let xray := clampQ (1 / 100000000) (1 / 10000)
    (s.xray + (r 8 - 0.48) * (1 / 10000000) + sf * (3 / 10000000))
  (⟨speed, density, temp, bt, bz, bx, byv, kp, xray⟩,
   ⟨fmt dateMs, speed, density, temp, bt, bz, bx, byv, kp, xray⟩)

/-- The generator's `for` loop: one pushed point per index, threading
the walk state. -/
def simLoop (step : ℕ → SimState → SimState × TelemetryPoint) :
    List ℕ → SimState → List TelemetryPoint
  | [], _ => []
  | i :: is, s =>
    let p := step i s
    p.2 :: simLoop step is p.1

/-- `generateSimulatedTimeline()`: 2–4 storms drawn from `rnd`, then
5000 points of the clamped biased random walk from the fixed initial
values.  `rnd` stands in for `Math.random()` (call `j` returns
`rnd j`), `nowMs` for `Date.now()`. -/
def generateSimulatedTimeline (rnd : ℕ → ℚ) (nowMs : ℚ) (fmt : ℚ → String) :
    List TelemetryPoint :=
  let count := 2 + (Int.floor (rnd 0 * 3)).toNat
  let storms := (List.range count).map (fun j =>
    Storm.mk (rnd (1 + 3 * j) * 5000) (60 + rnd (2 + 3 * j) * 200)
      (0.5 + rnd (3 + 3 * j) * 0.5))
  simLoop (simStep rnd (1 + 3 * count) storms nowMs fmt) (List.range 5000)
    ⟨380, 5, 120000, 6, 1, 0, 2, 2, 2 / 10000000⟩

/-! ### Timeline Player -/

/-- The mutable fields of a `TimelinePlayer` instance. -/
structure PlayerState where
  timeline : List TelemetryPoint
  index : ℕ
  isLive : Bool
  loading : Bool
  error : Option String
  currentTime : String
  progress : ℚ
  paused : Bool

/-- The constructor's initial state. -/
def initPlayer : PlayerState :=
  ⟨[], 0, false, true, none, "", 0, false⟩

/-- The four raw NOAA payloads as delivered to `parseNOAAData`. -/
structure RawPayloads where
  plasma : List PlasmaRow
  mag : List MagRow
  kp : List KpRow
  xray : Option (List XrayRow)

/-- `fetchLive()`.  The network stage is abstracted as
`acq : Except String RawPayloads`: `Except.error msg` covers a rejected
fetch or a non-ok response (whose message is "NOAA API unavailable"),
`Except.ok` delivers the decoded payloads.  The JS `try`/`catch`
swallows every failure, so the embedding is total: the second component
is the JS return value (`true` on the live path, `false` on the
fallback path) and nothing escapes to the caller. -/
def fetchLive (st : PlayerState) (acq : Except String RawPayloads)
    (rnd : ℕ → ℚ) (nowMs : ℚ) (fmt : ℚ → String) : PlayerState × Bool :=
  let st0 := { st with loading := true, error := none }
  match acq with
  | .error msg =>
    ({ st0 with timeline := generateSimulatedTimeline rnd nowMs fmt,
                isLive := false, index := 0, loading := false, error := some msg }, false)
  | .ok p =>
    let tl := parseNOAAData p.plasma p.mag p.kp p.xray
    if tl.length < 100 then
      ({ st0 with timeline := generateSimulatedTimeline rnd nowMs fmt,
                  isLive := false, index := 0, loading := false,
                  error := some "Insufficient data" }, false)
    else
      ({ st0 with timeline := tl, isLive := true, index := 0, loading := false }, true)

/-- Acquisition or normalization failed: either the fetch stage threw
(network error / non-ok response) or the parsed timeline is shorter
than the minimum viability threshold of 100. -/
def fetchFailed (acq : Except String RawPayloads) : Prop :=
  match acq with
  | .error _ => True
  | .ok p => (parseNOAAData p.plasma p.mag p.kp p.xray).length < 100

instance (acq : Except String RawPayloads) : Decidable (fetchFailed acq) := by
  unfold fetchFailed
  cases acq with
  | error msg => exact inferInstanceAs (Decidable True)
  | ok p => exact inferInstanceAs (Decidable (_ < _))

/-- The record returned by `getCurrent` (`latest` holds the six
interpolated scalars in source order). -/
structure Latest where
  speed : ℚ
  density : ℚ
  temp : ℚ
  bt : ℚ
  bz : ℚ
  kp : ℚ
deriving DecidableEq, Repr

/-- Everything `getCurrent` returns to its caller. -/
structure CurrentData where
  latest : Latest
  xray_values : List ℚ
  currentTime : String
  progress : ℚ
  isLive : Bool
  totalPoints : ℕ
  index : ℕ
deriving DecidableEq, Repr

/-- `getCurrent(fraction)`: `none` on an empty timeline, otherwise the
record linearly interpolated between the clamped cursor point and the
(clamped) next point; also updates the player's `currentTime` and
`progress` fields, which the first component carries. -/
def getCurrent (st : PlayerState) (fraction : ℚ) : PlayerState × Option CurrentData :=
  if st.timeline.length = 0 then (st, none)
  else
    let i := min st.index (st.timeline.length - 1)
    let a := st.timeline.getD i dfltPoint
    let b := st.timeline.getD (min (i + 1) (st.timeline.length - 1)) dfltPoint
    let t := fraction
    let lerp := fun v1 v2 => v1 + (v2 - v1) * t
    let progress := (st.index : ℚ) / ((max 1 (st.timeline.length - 1) : ℕ) : ℚ)
    ({ st with currentTime := a.time, progress := progress },
     some
       { latest := ⟨lerp a.speed b.speed, lerp a.density b.density, lerp a.temp b.temp,
                    lerp a.bt b.bt, lerp a.bz b.bz, lerp a.kp b.kp⟩,
         xray_values := [a.xray, lerp a.xray b.xray],
         currentTime := a.time, progress := progress, isLive := st.isLive,
         totalPoints := st.timeline.length, index := st.index })

/-- The point at the clamped cursor that `getCurrent` interpolates
from (`a` in the source). -/
def cursorA (st : PlayerState) : TelemetryPoint :=
  st.timeline.getD (min st.index (st.timeline.length - 1)) dfltPoint

/-- The (clamped) next point that `getCurrent` interpolates toward
(`b` in the source); at the last index it coincides with `cursorA`. -/
def cursorB (st : PlayerState) : TelemetryPoint :=
  st.timeline.getD (min (min st.index (st.timeline.length - 1) + 1) (st.timeline.length - 1))
    dfltPoint

/-- `advance()`: inert while paused; otherwise increments the cursor
and, when the incremented index reaches the last point, wraps to `0`
and returns the "window exhausted" signal `true`. -/
def advance (st : PlayerState) : PlayerState × Bool :=
  if st.paused then (st, false)
  else
    let idx := st.index + 1
    if st.timeline.length - 1 ≤ idx then ({ st with index := 0 }, true)
    else ({ st with index := idx }, false)

/-- `togglePause()`: flips and returns the pause flag. -/
def togglePause (st : PlayerState) : PlayerState × Bool :=
  ({ st with paused := !st.paused }, !st.paused)

/-- `advance()` called `k` times, collecting each call's return value
in order. -/
def advanceSeq : ℕ → PlayerState → PlayerState × List Bool
  | 0, st => (st, [])
  | k + 1, st =>
    let r := advance st
    let rest := advanceSeq k r.1
    (rest.1, r.2 :: rest.2)

/-! ### Smoothed State (buildScene animate loop) -/

/-- The five exponentially smoothed scalars `sm` of the animate loop. -/
structure Sm where
  speed : ℚ
  density : ℚ
  bz : ℚ
  bt : ℚ
  kp : ℚ
deriving DecidableEq, Repr

/-- One render tick's smoothing update: each scalar moves 1.5% of the
way toward its newly normalized target, exactly as the five `sm.* +=`
lines of the animate loop. -/
def smStep (sm : Sm) (l : Latest) : Sm :=
  { speed := sm.speed + (min 1 (orD l.speed 400 / 900) - sm.speed) * 0.015
    density := sm.density + (min 1 (orD l.density 5 / 20) - sm.density) * 0.015
    bz := sm.bz + (max (-1) (min 1 (orD l.bz 0 / 15)) - sm.bz) * 0.015
    bt := sm.bt + (min 1 (orD l.bt 5 / 25) - sm.bt) * 0.015
    kp := sm.kp + (min 1 (orD l.kp 2 / 9) - sm.kp) * 0.015 }

/-- Smoothing iterated over a sequence of telemetry inputs, one render
tick per input. -/
def smRun (sm : Sm) (ls : List Latest) : Sm := ls.foldl smStep sm

/-- The derived intensity:
`Math.max(0.15, (sm.kp + sm.bt + Math.max(0, -sm.bz)) / 2.5)`. -/
def intensity (sm : Sm) : ℚ := max 0.15 ((sm.kp + sm.bt + max 0 (-sm.bz)) / 2.5)

/-- The normalized bounds of the smoothed scalars: speed, density, bt,
kp in `[0, 1]`, bz in `[-1, 1]`. -/
def smInBounds (sm : Sm) : Prop :=
  0 ≤ sm.speed ∧ sm.speed ≤ 1 ∧ 0 ≤ sm.density ∧ sm.density ≤ 1 ∧
    -1 ≤ sm.bz ∧ sm.bz ≤ 1 ∧ 0 ≤ sm.bt ∧ sm.bt ≤ 1 ∧ 0 ≤ sm.kp ∧ sm.kp ≤ 1

instance (sm : Sm) : Decidable (smInBounds sm) := by
  unfold smInBounds; infer_instance

/-- Physically meaningful (bounded-domain) telemetry: the four
nonnegative channels are nonnegative; `bz` may have either sign. -/
def goodLatest (l : Latest) : Prop :=
  0 ≤ l.speed ∧ 0 ≤ l.density ∧ 0 ≤ l.bt ∧ 0 ≤ l.kp

instance (l : Latest) : Decidable (goodLatest l) := by
  unfold goodLatest; infer_instance

/-! ### Trail pass (max-blend fragment shader) -/

/-- The per-tick fade factor: `uFade = 0.75 + intensity * 0.08`. -/
def trailFade (intens : ℚ) : ℚ := 0.75 + intens * 0.08

/-- The trail fragment shader on one pixel channel:
`gl_FragColor = max(newCol, prevCol * uFade)`. -/
def trailBlend (newC prevC fade : ℚ) : ℚ := max newC (prevC * fade)

/-- The trail buffer value of one pixel after `n` ticks whose scene
pass rendered constant black (`newC = 0`). -/
def trailIter (fade : ℚ) : ℕ → ℚ → ℚ
  | 0, p => p
  | n + 1, p => trailIter fade n (trailBlend 0 p fade)

/-! ### Sonification Engine -/

/-- The x-ray bell trigger threshold `4e-7`. -/
def bellThreshold : ℚ := 4 / 10000000

/-- The bell gate inside `SonEngine.update`: fire iff the flux reading
exceeds the threshold and more than `1.5` seconds passed since the last
trigger; firing records the trigger time. -/
def bellStep (lastBell now xv : ℚ) : Bool × ℚ :=
  if bellThreshold < xv ∧ 1.5 < now - lastBell then (true, now) else (false, lastBell)

/-- The bell gate run over a sequence of `(now, flux)` samples,
collecting whether each sample fired. -/
def bellRun (lastBell : ℚ) : List (ℚ × ℚ) → List Bool
  | [] => []
  | e :: rest =>
    let r := bellStep lastBell e.1 e.2
    r.1 :: bellRun r.2 rest

/-- The engine state: `on`, a count of allocated voice/effect nodes
(the 13 Tone nodes `start` creates), the two trigger clocks, and the
breathing LFO depth range. -/
structure SonEngine where
  isOn : Bool
  allocCount : ℕ
  lastPluck : ℚ
  lastBell : ℚ
  breathMin : ℚ
  breathMax : ℚ
deriving DecidableEq, Repr

/-- `SonEngine.start()`: returns immediately when already on;
otherwise allocates the 13 voice/effect nodes and initializes the
trigger clocks and the breathing LFO range (`min: 0.15, max: 0.3`). -/
def sonStart (s : SonEngine) : SonEngine :=
  if s.isOn then s
  else
    { isOn := true, allocCount := s.allocCount + 13, lastPluck := 0, lastBell := 0,
      breathMin := 0.15, breathMax := 0.3 }

/-- `SonEngine.update(d)` restricted to the engine's own state: the
guard `if (!this.on || !d) return`, the pluck inter-trigger gate
`now - _lastPluck > 0.3 / (0.2 + dN)`, the bell gate, and the breathing
LFO depth update.  The audio triggers themselves are external effects
and carry no engine state beyond these fields. -/
def sonUpdate (s : SonEngine) (d : Option CurrentData) (now : ℚ) : SonEngine :=
  if s.isOn = false then s
  else
    match d with
    | none => s
    | some dd =>
      let l := dd.latest
      let sN := min 1 (orD l.speed 400 / 900)
      let dN := min 1 (orD l.density 5 / 20)
      let kpN := min 1 (orD l.kp 2 / 9)
      let lastPluck := if 0.3 / (0.2 + dN) < now - s.lastPluck then now else s.lastPluck
      let xv := (dd.xray_values.getLast?).getD 0
      let lastBell := if bellThreshold < xv ∧ 1.5 < now - s.lastBell then now else s.lastBell
      { s with lastPluck := lastPluck, lastBell := lastBell,
               breathMin := 0.1 + (sN + kpN) * 0.05, breathMax := 0.2 + (sN + kpN) * 0.1 }

/-! ### Concrete payloads used for counterexamples and witnesses -/

/-- A plasma payload: header, then two valid rows one minute apart. -/
def exPlasma : List PlasmaRow :=
  [⟨none, none, none, none⟩,
   ⟨some "2025-02-01 00:00:30", some 4, some 500, some 90000⟩,
   ⟨some "2025-02-01 00:01:30", some 4, some 500, some 90000⟩]

/-- A mag payload: header, then one real reading (bt = 7) at the first
plasma minute only. -/
def exMag : List MagRow :=
  [⟨none, none, none, none, none⟩,
   ⟨some "2025-02-01 00:00:00", some 1, some 2, some 3, some 7⟩]

/-- A kp payload that is just a header row. -/
def exKp : List KpRow := [⟨none, none⟩]

/-- An empty (but array-shaped) x-ray payload. -/
def exXray : Option (List XrayRow) := some []

/-- A plasma payload whose single data row has a non-numeric speed
cell. -/
def exPlasmaBad : List PlasmaRow :=
  [⟨none, none, none, none⟩,
   ⟨some "2025-02-01 00:00:30", some 3, none, some 100⟩]

/-! ### Helper lemmas -/

theorem simLoop_length (step : ℕ → SimState → SimState × TelemetryPoint) :
    ∀ (l : List ℕ) (s : SimState), (simLoop step l s).length = l.length := by
  intro l
  induction l with
  | nil => intro s; rfl
  | cons i is ih => intro s; simp [simLoop, ih]

theorem generateSimulatedTimeline_length (rnd : ℕ → ℚ) (nowMs : ℚ) (fmt : ℚ → String) :
    (generateSimulatedTimeline rnd nowMs fmt).length = 5000 := by
  simp [generateSimulatedTimeline, simLoop_length]

theorem advanceSeq_paused : ∀ (k : ℕ) (st : PlayerState), st.paused = true →
    advanceSeq k st = (st, List.replicate k false) := by
  intro k
  induction k with
  | zero => intro st _; rfl
  | succ j ih =>
    intro st hp
    simp [advanceSeq, advance, hp, ih st hp, List.replicate_succ]

theorem advanceSeq_run : ∀ (k : ℕ) (st : PlayerState), st.paused = false →
    st.index + k < st.timeline.length - 1 →
    advanceSeq k st = ({ st with index := st.index + k }, List.replicate k false) := by
  intro k
  induction k with
  | zero => intro st _ _; simp [advanceSeq]
  | succ j ih =>
    intro st hp hk
    have hstep : advance st = ({ st with index := st.index + 1 }, false) := by
      have hlt : ¬ st.timeline.length - 1 ≤ st.index + 1 := by omega
      simp [advance, hp, hlt]
    have hrec := ih { st with index := st.index + 1 } hp (by simpa using by omega)
    simp only [advanceSeq, hstep, hrec, List.replicate_succ]
    have h2 : st.index + 1 + j = st.index + (j + 1) := by omega
    rw [h2]

theorem advanceSeq_append : ∀ (j k : ℕ) (st : PlayerState),
    advanceSeq (j + k) st =
      ((advanceSeq k (advanceSeq j st).1).1,
       (advanceSeq j st).2 ++ (advanceSeq k (advanceSeq j st).1).2) := by
  intro j
  induction j with
  | zero => intro k st; simp [advanceSeq]
  | succ i ih =>
    intro k st
    have h1 : i + 1 + k = (i + k) + 1 := by omega
    rw [h1]
    simp only [advanceSeq, ih k (advance st).1, List.cons_append]

theorem plasmaLoop_carry (magGet : String → Option MagVal) (kpGet xrayGet : String → Option ℚ) :
    ∀ (rows : List PlasmaRow) (k x : ℚ) (i : ℕ) (pt : TelemetryPoint),
      (plasmaLoop magGet kpGet xrayGet rows k x)[i]? = some pt →
      pt.kp = carried kpGet k (validKeys rows) i ∧
      pt.xray = carried xrayGet x (validKeys rows) i ∧
      pt.bt = ((magGet ((validKeys rows).getD i "")).getD ⟨0, 0, 0, 5⟩).bt ∧
      pt.bz = ((magGet ((validKeys rows).getD i "")).getD ⟨0, 0, 0, 5⟩).bz ∧
      pt.bx = ((magGet ((validKeys rows).getD i "")).getD ⟨0, 0, 0, 5⟩).bx ∧
      pt.byv = ((magGet ((validKeys rows).getD i "")).getD ⟨0, 0, 0, 5⟩).byv := by
  intro rows
  induction rows with
  | nil => intro k x i pt h; simp [plasmaLoop] at h
  | cons r rs ih =>
    intro k x i pt h
    cases hr : r.time_tag with
    | none =>
      rw [plasmaLoop, hr] at h
      simpa [validKeys, hr] using ih k x i pt h
    | some ts =>
      rw [plasmaLoop, hr] at h
      cases i with
      | zero =>
        simp only [List.getElem?_cons_zero, Option.some.injEq] at h
        subst h
        simp [validKeys, hr, carried]
      | succ j =>
        simp only [List.getElem?_cons_succ] at h
        have := ih ((kpGet (ts.take 16)).getD k) ((xrayGet (ts.take 16)).getD x) j pt h
        simpa [validKeys, hr, carried] using this

/-! ### Claim theorems: Timeline Player -/

/-- C1: whenever `fetchLive` fails to acquire or normalize (network
error, non-ok response, or fewer than 100 parsed points), the player
ends up with a freshly generated synthetic timeline of length at least
100 (in fact 5000), `isLive = false`, a recorded failure reason, cursor
index 0, and the call returns `false` instead of raising (the embedding
is total — the JS `catch` swallows the failure); the resulting timeline
is non-empty, so the player is usable. -/
theorem claim_fetchLive_failure_fallback (st : PlayerState)
    (acq : Except String RawPayloads) (rnd : ℕ → ℚ) (nowMs : ℚ) (fmt : ℚ → String)
    (h : fetchFailed acq) :
    100 ≤ (fetchLive st acq rnd nowMs fmt).1.timeline.length ∧
    (fetchLive st acq rnd nowMs fmt).1.isLive = false ∧
    (fetchLive st acq rnd nowMs fmt).1.error ≠ none ∧
    (fetchLive st acq rnd nowMs fmt).1.index = 0 ∧
    (fetchLive st acq rnd nowMs fmt).2 = false ∧
    (fetchLive st acq rnd nowMs fmt).1.timeline ≠ [] := by
  have hne : ∀ rnd' nowMs' fmt', generateSimulatedTimeline rnd' nowMs' fmt' ≠ ([] : List TelemetryPoint) := by
    intro rnd' nowMs' fmt'
    have := generateSimulatedTimeline_length rnd' nowMs' fmt'
    intro hc
    rw [hc] at this
    simp at this
  cases acq with
  | error msg =>
    refine ⟨?_, ?_, ?_, ?_, ?_, ?_⟩ <;>
      simp [fetchLive, generateSimulatedTimeline_length, hne]
  | ok p =>
    have h' : (parseNOAAData p.plasma p.mag p.kp p.xray).length < 100 := h
    refine ⟨?_, ?_, ?_, ?_, ?_, ?_⟩ <;>
      simp [fetchLive, h', generateSimulatedTimeline_length, hne]

theorem claim_fetchLive_failure_fallback_witness :
    fetchFailed (Except.error "NOAA API unavailable") ∧
    (100 ≤ (fetchLive initPlayer (Except.error "NOAA API unavailable")
        (fun _ => 0) 0 (fun _ => "")).1.timeline.length ∧
     (fetchLive initPlayer (Except.error "NOAA API unavailable")
        (fun _ => 0) 0 (fun _ => "")).1.isLive = false ∧
     (fetchLive initPlayer (Except.error "NOAA API unavailable")
        (fun _ => 0) 0 (fun _ => "")).1.error ≠ none ∧
     (fetchLive initPlayer (Except.error "NOAA API unavailable")
        (fun _ => 0) 0 (fun _ => "")).1.index = 0 ∧
     (fetchLive initPlayer (Except.error "NOAA API unavailable")
        (fun _ => 0) 0 (fun _ => "")).2 = false ∧
     (fetchLive initPlayer (Except.error "NOAA API unavailable")
        (fun _ => 0) 0 (fun _ => "")).1.timeline ≠ []) :=
  ⟨trivial,
   claim_fetchLive_failure_fallback initPlayer (Except.error "NOAA API unavailable")
     (fun _ => 0) 0 (fun _ => "") trivial⟩

/-- C4: on a non-empty timeline, `getCurrent` with `fraction = 0`
returns exactly the point at the (clamped) cursor, with `fraction = 1`
exactly the next point (clamped to the last point at the end of the
window, never out of range), and with `fraction = 1/2` the arithmetic
midpoint of the two consecutive points, in every interpolated scalar
and in both flux readings. -/
theorem claim_getCurrent_interp (st : PlayerState) (h : st.timeline ≠ []) :
    ((getCurrent st 0).2.map (fun c => (c.latest, c.xray_values)) =
      some (⟨(cursorA st).speed, (cursorA st).density, (cursorA st).temp,
             (cursorA st).bt, (cursorA st).bz, (cursorA st).kp⟩,
            [(cursorA st).xray, (cursorA st).xray])) ∧
    ((getCurrent st 1).2.map (fun c => (c.latest, c.xray_values)) =
      some (⟨(cursorB st).speed, (cursorB st).density, (cursorB st).temp,
             (cursorB st).bt, (cursorB st).bz, (cursorB st).kp⟩,
            [(cursorA st).xray, (cursorB st).xray])) ∧
    ((getCurrent st (1 / 2)).2.map (fun c => (c.latest, c.xray_values)) =
      some (⟨((cursorA st).speed + (cursorB st).speed) / 2,
             ((cursorA st).density + (cursorB st).density) / 2,
             ((cursorA st).temp + (cursorB st).temp) / 2,
             ((cursorA st).bt + (cursorB st).bt) / 2,
             ((cursorA st).bz + (cursorB st).bz) / 2,
             ((cursorA st).kp + (cursorB st).kp) / 2⟩,
            [(cursorA st).xray, ((cursorA st).xray + (cursorB st).xray) / 2])) := by
  have hlen : ¬ st.timeline.length = 0 := (List.length_pos.mpr h).ne'
  refine ⟨?_, ?_, ?_⟩ <;>
    · simp only [getCurrent, cursorA, cursorB, if_neg hlen, Option.map_some']
      simp only [Option.some.injEq, Prod.mk.injEq, Latest.mk.injEq, List.cons.injEq,
        and_true]
      repeat' apply And.intro
      all_goals ring_nf

theorem claim_getCurrent_interp_witness :
    ({ initPlayer with
        timeline := [dfltPoint, ⟨"t", 10, 20, 30, 40, -6, 1, 2, 3, 8⟩], index := 1 } :
      PlayerState).timeline ≠ [] ∧
    (let st : PlayerState :=
      { initPlayer with
          timeline := [dfltPoint, ⟨"t", 10, 20, 30, 40, -6, 1, 2, 3, 8⟩], index := 1 }
     ((getCurrent st 0).2.map (fun c => (c.latest, c.xray_values)) =
       some (⟨(cursorA st).speed, (cursorA st).density, (cursorA st).temp,
              (cursorA st).bt, (cursorA st).bz, (cursorA st).kp⟩,
             [(cursorA st).xray, (cursorA st).xray])) ∧
     ((getCurrent st 1).2.map (fun c => (c.latest, c.xray_values)) =
       some (⟨(cursorB st).speed, (cursorB st).density, (cursorB st).temp,
              (cursorB st).bt, (cursorB st).bz, (cursorB st).kp⟩,
             [(cursorA st).xray, (cursorB st).xray])) ∧
     ((getCurrent st (1 / 2)).2.map (fun c => (c.latest, c.xray_values)) =
       some (⟨((cursorA st).speed + (cursorB st).speed) / 2,
              ((cursorA st).density + (cursorB st).density) / 2,
              ((cursorA st).temp + (cursorB st).temp) / 2,
              ((cursorA st).bt + (cursorB st).bt) / 2,
              ((cursorA st).bz + (cursorB st).bz) / 2,
              ((cursorA st).kp + (cursorB st).kp) / 2⟩,
             [(cursorA st).xray, ((cursorA st).xray + (cursorB st).xray) / 2]))) :=
  ⟨by decide, claim_getCurrent_interp _ (by decide)⟩

/-- C5: on a timeline of length `n ≥ 2`, starting unpaused at index 0,
`advance()` called exactly `n - 1` times signals "window exhausted"
exactly once — on the last call — and leaves the cursor reset to 0. -/
theorem claim_advance_window_exhausted (st : PlayerState) (n : ℕ)
    (hp : st.paused = false) (hi : st.index = 0)
    (hn : st.timeline.length = n) (h2 : 2 ≤ n) :
    (advanceSeq (n - 1) st).2 = List.replicate (n - 2) false ++ [true] ∧
    (advanceSeq (n - 1) st).1.index = 0 := by
  have hsplit : n - 1 = (n - 2) + 1 := by omega
  have hrun := advanceSeq_run (n - 2) st hp (by rw [hi, hn]; omega)
  have hc : st.timeline.length - 1 ≤ st.index + (n - 2) + 1 := by rw [hi, hn]; omega
  have hlast : advance { st with index := st.index + (n - 2) } =
      ({ st with index := 0 }, true) := by
    simp [advance, hp, hc]
  rw [hsplit, advanceSeq_append (n - 2) 1 st, hrun]
  simp [advanceSeq, hlast]

theorem claim_advance_window_exhausted_witness :
    (({ initPlayer with timeline := [dfltPoint, dfltPoint, dfltPoint], loading := false } :
        PlayerState).paused = false ∧
     ({ initPlayer with timeline := [dfltPoint, dfltPoint, dfltPoint], loading := false } :
        PlayerState).index = 0 ∧
     ({ initPlayer with timeline := [dfltPoint, dfltPoint, dfltPoint], loading := false } :
        PlayerState).timeline.length = 3 ∧ 2 ≤ 3) ∧
    ((advanceSeq (3 - 1)
        { initPlayer with timeline := [dfltPoint, dfltPoint, dfltPoint], loading := false }).2 =
      List.replicate (3 - 2) false ++ [true] ∧
     (advanceSeq (3 - 1)
        { initPlayer with timeline := [dfltPoint, dfltPoint, dfltPoint], loading := false }).1.index =
      0) :=
  ⟨⟨rfl, rfl, rfl, by norm_num⟩,
   claim_advance_window_exhausted _ 3 rfl rfl rfl (by norm_num)⟩

/-- C6: on a 5000-point timeline with the cursor at `i` where
`i + 50 < length - 1`, `togglePause()` followed by 50 `advance()` calls
leaves the cursor at `i` (and signals nothing); a second
`togglePause()` followed by 50 more `advance()` calls moves the cursor
to exactly `i + 50` with no wrap signal. -/
theorem claim_pause_advance (st : PlayerState) (i : ℕ)
    (hp : st.paused = false) (hlen : st.timeline.length = 5000) (hi : st.index = i)
    (hb : i + 50 < 4999) :
    (advanceSeq 50 (togglePause st).1).1.index = i ∧
    (advanceSeq 50 (togglePause st).1).2 = List.replicate 50 false ∧
    (advanceSeq 50 (togglePause (advanceSeq 50 (togglePause st).1).1).1).1.index = i + 50 ∧
    (advanceSeq 50 (togglePause (advanceSeq 50 (togglePause st).1).1).1).2 =
      List.replicate 50 false := by
  have h1 : (togglePause st).1 = { st with paused := true } := by
    simp [togglePause, hp]
  have h2 : advanceSeq 50 ({ st with paused := true } : PlayerState) =
      ({ st with paused := true }, List.replicate 50 false) :=
    advanceSeq_paused 50 _ rfl
  have h3 : (togglePause ({ st with paused := true } : PlayerState)).1 =
      { st with paused := false } := by
    simp [togglePause]
  have h4 : advanceSeq 50 ({ st with paused := false } : PlayerState) =
      ({ { st with paused := false } with index := st.index + 50 },
       List.replicate 50 false) := by
    apply advanceSeq_run
    · rfl
    · show st.index + 50 < st.timeline.length - 1
      rw [hi, hlen]
      omega
  rw [h1, h2]
  simp only [h3]
  simp only [h4]
  simp only [hi]
  exact ⟨trivial, trivial, trivial, trivial⟩

theorem claim_pause_advance_witness :
    (({ initPlayer with timeline := List.replicate 5000 dfltPoint, loading := false } :
        PlayerState).paused = false ∧
     ({ initPlayer with timeline := List.replicate 5000 dfltPoint, loading := false } :
        PlayerState).timeline.length = 5000 ∧
     ({ initPlayer with timeline := List.replicate 5000 dfltPoint, loading := false } :
        PlayerState).index = 0 ∧ 0 + 50 < 4999) ∧
    (let wst : PlayerState :=
      { initPlayer with timeline := List.replicate 5000 dfltPoint, loading := false }
     (advanceSeq 50 (togglePause wst).1).1.index = 0 ∧
     (advanceSeq 50 (togglePause wst).1).2 = List.replicate 50 false ∧
     (advanceSeq 50 (togglePause (advanceSeq 50 (togglePause wst).1).1).1).1.index = 0 + 50 ∧
     (advanceSeq 50 (togglePause (advanceSeq 50 (togglePause wst).1).1).1).2 =
       List.replicate 50 false) :=
  ⟨⟨rfl, by show (List.replicate 5000 dfltPoint).length = 5000; rw [List.length_replicate],
    rfl, by norm_num⟩,
   claim_pause_advance _ 0 rfl
     (by show (List.replicate 5000 dfltPoint).length = 5000; rw [List.length_replicate])
     rfl (by norm_num)⟩

/-! ### Claim theorems: Smoothed State, trail pass, sonification -/

theorem orD_nonneg (v d : ℚ) (hv : 0 ≤ v) (hd : 0 ≤ d) : 0 ≤ orD v d := by
  unfold orD
  split <;> assumption

theorem smStep_inBounds (sm : Sm) (l : Latest) (hsm : smInBounds sm) (hl : goodLatest l) :
    smInBounds (smStep sm l) := by
  obtain ⟨hs0, hs1, hd0, hd1, hz0, hz1, hb0, hb1, hk0, hk1⟩ := hsm
  obtain ⟨ls, ld, lb, lk⟩ := hl
  have t1 : (0:ℚ) ≤ min 1 (orD l.speed 400 / 900) :=
    le_min (by norm_num) (div_nonneg (orD_nonneg _ _ ls (by norm_num)) (by norm_num))
  have t2 : min 1 (orD l.speed 400 / 900) ≤ 1 := min_le_left _ _
  have u1 : (0:ℚ) ≤ min 1 (orD l.density 5 / 20) :=
    le_min (by norm_num) (div_nonneg (orD_nonneg _ _ ld (by norm_num)) (by norm_num))
  have u2 : min 1 (orD l.density 5 / 20) ≤ 1 := min_le_left _ _
  have z1 : (-1:ℚ) ≤ max (-1) (min 1 (orD l.bz 0 / 15)) := le_max_left _ _
  have z2 : max (-1:ℚ) (min 1 (orD l.bz 0 / 15)) ≤ 1 :=
    max_le (by norm_num) (min_le_left _ _)
  have v1 : (0:ℚ) ≤ min 1 (orD l.bt 5 / 25) :=
    le_min (by norm_num) (div_nonneg (orD_nonneg _ _ lb (by norm_num)) (by norm_num))
  have v2 : min 1 (orD l.bt 5 / 25) ≤ 1 := min_le_left _ _
  have w1 : (0:ℚ) ≤ min 1 (orD l.kp 2 / 9) :=
    le_min (by norm_num) (div_nonneg (orD_nonneg _ _ lk (by norm_num)) (by norm_num))
  have w2 : min 1 (orD l.kp 2 / 9) ≤ 1 := min_le_left _ _
  refine ⟨?_, ?_, ?_, ?_, ?_, ?_, ?_, ?_, ?_, ?_⟩ <;> simp only [smStep] <;> linarith

theorem smRun_inBounds (sm : Sm) (ls : List Latest) (hsm : smInBounds sm)
    (hl : ∀ l ∈ ls, goodLatest l) : smInBounds (smRun sm ls) := by
  induction ls generalizing sm with
  | nil => exact hsm
  | cons l rest ih =>
    show smInBounds (smRun (smStep sm l) rest)
    exact ih (smStep sm l) (smStep_inBounds sm l hsm (hl l (by simp)))
      (fun x hx => hl x (by simp [hx]))

/-- C7: for every sequence of bounded (physical-domain, i.e. the four
nonnegative channels nonnegative) telemetry inputs and every number of
render ticks, the five exponentially smoothed scalars stay within their
normalized bounds (speed, density, bt, kp in [0,1], bz in [-1,1]) given
in-bounds initial values, and the derived intensity never drops below
the 0.15 floor, so the scene never goes fully dark. -/
theorem claim_smoothing_bounds (sm : Sm) (ls : List Latest)
    (hsm : smInBounds sm) (hl : ∀ l ∈ ls, goodLatest l) :
    smInBounds (smRun sm ls) ∧ (0.15 : ℚ) ≤ intensity (smRun sm ls) :=
  ⟨smRun_inBounds sm ls hsm hl, le_max_left _ _⟩

theorem claim_smoothing_bounds_witness :
    (smInBounds ⟨0.5, 0.5, 0, 0.3, 0.3⟩ ∧
     (∀ l ∈ [(⟨420, 5, 100000, 6, -3, 2⟩ : Latest)], goodLatest l)) ∧
    (smInBounds (smRun ⟨0.5, 0.5, 0, 0.3, 0.3⟩ [⟨420, 5, 100000, 6, -3, 2⟩]) ∧
     (0.15 : ℚ) ≤ intensity (smRun ⟨0.5, 0.5, 0, 0.3, 0.3⟩ [⟨420, 5, 100000, 6, -3, 2⟩])) :=
  ⟨⟨by norm_num [smInBounds], by decide⟩,
   claim_smoothing_bounds _ _ (by norm_num [smInBounds]) (by decide)⟩

theorem intensity_le (sm : Sm) (h : smInBounds sm) : intensity sm ≤ 1.2 := by
  obtain ⟨hs0, hs1, hd0, hd1, hz0, hz1, hb0, hb1, hk0, hk1⟩ := h
  have hm : max 0 (-sm.bz) ≤ 1 := max_le (by norm_num) (by linarith)
  unfold intensity
  apply max_le (by norm_num)
  rw [div_le_iff₀ (by norm_num : (0 : ℚ) < 2.5)]
  linarith

theorem trailIter_formula (f : ℚ) (hf : 0 ≤ f) : ∀ (n : ℕ) (p : ℚ), 0 ≤ p →
    trailIter f n p = p * f ^ n := by
  intro n
  induction n with
  | zero => intro p hp; simp [trailIter]
  | succ m ih =>
    intro p hp
    have hblend : trailBlend 0 p f = p * f := by
      unfold trailBlend
      rw [max_eq_right (mul_nonneg hp hf)]
    rw [trailIter, hblend, ih (p * f) (mul_nonneg hp hf)]
    ring

/-- C8: the trail pass computes `out = max(new, prev * fade)` with
`fade = 0.75 + intensity * 0.08` — a per-pixel maximum, not additive
accumulation.  For every attainable smoothed state the fade factor is
below 1, and iterating the pass with a constant black scene input
(`new = 0`) from any nonnegative pixel value decreases monotonically
and converges to 0: the feedback never amplifies brightness. -/
theorem claim_trail_convergence (sm : Sm) (p0 : ℚ) (hsm : smInBounds sm) (hp : 0 ≤ p0) :
    trailFade (intensity sm) < 1 ∧
    (∀ n : ℕ, trailIter (trailFade (intensity sm)) (n + 1) p0 ≤
      trailIter (trailFade (intensity sm)) n p0) ∧
    (∀ ε : ℚ, 0 < ε → ∃ N : ℕ, ∀ n, N ≤ n →
      trailIter (trailFade (intensity sm)) n p0 < ε) := by
  have hI1 : intensity sm ≤ 1.2 := intensity_le sm hsm
  have hI0 : (0.15 : ℚ) ≤ intensity sm := le_max_left _ _
  have hf0 : 0 ≤ trailFade (intensity sm) := by unfold trailFade; linarith
  have hf1 : trailFade (intensity sm) < 1 := by unfold trailFade; linarith
  refine ⟨hf1, ?_, ?_⟩
  · intro n
    rw [trailIter_formula _ hf0 n p0 hp, trailIter_formula _ hf0 (n + 1) p0 hp]
    exact mul_le_mul_of_nonneg_left
      (pow_le_pow_of_le_one hf0 (le_of_lt hf1) (by omega)) hp
  · intro ε hε
    have hp1 : (0:ℚ) < p0 + 1 := by linarith
    obtain ⟨N, hN⟩ := exists_pow_lt_of_lt_one (div_pos hε hp1) hf1
    refine ⟨N, fun n hn => ?_⟩
    rw [trailIter_formula _ hf0 n p0 hp]
    have h1 : trailFade (intensity sm) ^ n ≤ trailFade (intensity sm) ^ N :=
      pow_le_pow_of_le_one hf0 (le_of_lt hf1) hn
    have h2 : p0 * trailFade (intensity sm) ^ n ≤ p0 * trailFade (intensity sm) ^ N :=
      mul_le_mul_of_nonneg_left h1 hp
    have h3 : (p0 + 1) * trailFade (intensity sm) ^ N < (p0 + 1) * (ε / (p0 + 1)) :=
      mul_lt_mul_of_pos_left hN hp1
    have h4 : (p0 + 1) * (ε / (p0 + 1)) = ε := by field_simp
    have h5 : p0 * trailFade (intensity sm) ^ N ≤ (p0 + 1) * trailFade (intensity sm) ^ N := by
      have := pow_nonneg hf0 N
      nlinarith
    linarith

theorem claim_trail_convergence_witness :
    (smInBounds ⟨0.5, 0.5, 0, 0.3, 0.3⟩ ∧ (0 : ℚ) ≤ 1) ∧
    (trailFade (intensity ⟨0.5, 0.5, 0, 0.3, 0.3⟩) < 1 ∧
     (∀ n : ℕ, trailIter (trailFade (intensity ⟨0.5, 0.5, 0, 0.3, 0.3⟩)) (n + 1) 1 ≤
       trailIter (trailFade (intensity ⟨0.5, 0.5, 0, 0.3, 0.3⟩)) n 1) ∧
     (∀ ε : ℚ, 0 < ε → ∃ N : ℕ, ∀ n, N ≤ n →
       trailIter (trailFade (intensity ⟨0.5, 0.5, 0, 0.3, 0.3⟩)) n 1 < ε)) :=
  ⟨⟨by norm_num [smInBounds], by norm_num⟩,
   claim_trail_convergence _ 1 (by norm_num [smInBounds]) (by norm_num)⟩

/-- C9: for the bell trigger state machine (threshold 4e-7, cooldown
1.5 s) fed the flux sequence [1e-8, 1e-8, 9e-7, 1e-8] at increasing
times: when the cooldown has elapsed before the sequence, exactly one
bell fires, at the third sample; when the cooldown has not elapsed by
the third sample, no bell fires at all. -/
theorem claim_bell_trigger (lb t1 t2 t3 t4 : ℚ)
    (h12 : t1 ≤ t2) (h23 : t2 ≤ t3) (_h34 : t3 ≤ t4) :
    (1.5 < t1 - lb →
      bellRun lb
        [(t1, 1 / 100000000), (t2, 1 / 100000000), (t3, 9 / 10000000), (t4, 1 / 100000000)] =
        [false, false, true, false]) ∧
    (t3 - lb ≤ 1.5 →
      bellRun lb
        [(t1, 1 / 100000000), (t2, 1 / 100000000), (t3, 9 / 10000000), (t4, 1 / 100000000)] =
        [false, false, false, false]) := by
  have hlow : ¬ bellThreshold < (1 / 100000000 : ℚ) := by norm_num [bellThreshold]
  have hhigh : bellThreshold < (9 / 10000000 : ℚ) := by norm_num [bellThreshold]
  constructor
  · intro h
    have h3 : (3 / 2 : ℚ) < t3 - lb := by linarith
    norm_num [bellRun, bellStep, bellThreshold, h3]
  · intro h
    have h3 : ¬ (3 / 2 : ℚ) < t3 - lb := by
      rw [not_lt]
      linarith
    norm_num [bellRun, bellStep, bellThreshold, h3]

theorem claim_bell_trigger_witness :
    bellRun (-2)
      [((0 : ℚ), 1 / 100000000), (1, 1 / 100000000), (2, 9 / 10000000), (3, 1 / 100000000)] =
      [false, false, true, false] ∧
    bellRun 1
      [((0 : ℚ), 1 / 100000000), (1, 1 / 100000000), (2, 9 / 10000000), (3, 1 / 100000000)] =
      [false, false, false, false] :=
  ⟨(claim_bell_trigger (-2) 0 1 2 3 (by norm_num) (by norm_num) (by norm_num)).1 (by norm_num),
   (claim_bell_trigger 1 0 1 2 3 (by norm_num) (by norm_num) (by norm_num)).2 (by norm_num)⟩

/-- C10: every public SonEngine operation is gated by `on`: `start()`
while already on returns with the whole engine state unchanged (in
particular `allocCount`, so no voices or effect nodes are allocated),
and `update()` while off, or with a null record, returns with the
whole engine state unchanged. -/
theorem claim_son_guards (s : SonEngine) (d : Option CurrentData) (now : ℚ) :
    (s.isOn = true → sonStart s = s) ∧
    (s.isOn = false → sonUpdate s d now = s) ∧
    (sonUpdate s none now = s) := by
  refine ⟨?_, ?_, ?_⟩
  · intro h
    simp [sonStart, h]
  · intro h
    simp [sonUpdate, h]
  · cases hon : s.isOn <;> simp [sonUpdate, hon]

theorem claim_son_guards_witness :
    ((⟨true, 13, 1, 2, 0.15, 0.3⟩ : SonEngine).isOn = true ∧
     (⟨false, 0, 1, 2, 0.15, 0.3⟩ : SonEngine).isOn = false) ∧
    (sonStart ⟨true, 13, 1, 2, 0.15, 0.3⟩ = ⟨true, 13, 1, 2, 0.15, 0.3⟩ ∧
     sonUpdate ⟨false, 0, 1, 2, 0.15, 0.3⟩
       (some ⟨⟨400, 5, 100000, 5, 0, 2⟩, [1 / 10000000, 1 / 10000000], "", 0, true, 1, 0⟩) 7 =
       ⟨false, 0, 1, 2, 0.15, 0.3⟩ ∧
     sonUpdate ⟨true, 13, 1, 2, 0.15, 0.3⟩ none 7 = ⟨true, 13, 1, 2, 0.15, 0.3⟩) :=
  ⟨⟨rfl, rfl⟩,
   ⟨(claim_son_guards ⟨true, 13, 1, 2, 0.15, 0.3⟩ none 7).1 rfl,
    (claim_son_guards ⟨false, 0, 1, 2, 0.15, 0.3⟩
      (some ⟨⟨400, 5, 100000, 5, 0, 2⟩, [1 / 10000000, 1 / 10000000], "", 0, true, 1, 0⟩) 7).2.1
      rfl,
    (claim_son_guards ⟨true, 13, 1, 2, 0.15, 0.3⟩ none 7).2.2⟩⟩

/-! ### Claim theorems: Normalizer (C2, C3) -/

theorem lookupMap_mem {V : Type} :
    ∀ (l : List (String × V)) (acc : Option V) (k : String) (v : V),
      l.foldl (fun acc e => if e.1 = k then some e.2 else acc) acc = some v →
      (k, v) ∈ l ∨ acc = some v := by
  intro l
  induction l with
  | nil => intro acc k v h; exact Or.inr h
  | cons e rest ih =>
    intro acc k v h
    simp only [List.foldl_cons] at h
    rcases ih _ k v h with hmem | hacc
    · exact Or.inl (List.mem_cons_of_mem _ hmem)
    · by_cases hk : e.1 = k
      · rw [if_pos hk] at hacc
        have he : e = (k, v) := Prod.ext hk (Option.some.inj hacc)
        rw [← he]
        exact Or.inl (List.mem_cons_self _ _)
      · rw [if_neg hk] at hacc
        exact Or.inr hacc

theorem magEntries_values (mag : List MagRow) (key : String) (v : MagVal)
    (h : lookupMap (magEntries mag) key = some v) :
    ∃ r ∈ mag.drop 1, ∃ ts, r.time_tag = some ts ∧ key = ts.take 16 ∧
      v = ⟨parsedOr r.bx 0, parsedOr r.byv 0, parsedOr r.bz 0, parsedOr r.bt 0⟩ := by
  rcases lookupMap_mem _ none key v h with hmem | hacc
  · unfold magEntries at hmem
    rw [List.mem_filterMap] at hmem
    obtain ⟨r, hr, hmap⟩ := hmem
    cases ht : r.time_tag with
    | none => rw [ht] at hmap; simp at hmap
    | some ts =>
      rw [ht] at hmap
      simp only [Option.map_some', Option.some.injEq, Prod.mk.injEq] at hmap
      exact ⟨r, hr, ts, ht, hmap.1.symm, hmap.2.symm⟩
  · simp at hacc

theorem plasmaLoop_fields (magGet : String → Option MagVal)
    (kpGet xrayGet : String → Option ℚ) :
    ∀ (rows : List PlasmaRow) (k x : ℚ) (pt : TelemetryPoint),
      pt ∈ plasmaLoop magGet kpGet xrayGet rows k x →
      ∃ r ∈ rows, ∃ ts, r.time_tag = some ts ∧ pt.time = ts ∧
        pt.speed = parsedOr r.speed 400 ∧ pt.density = parsedOr r.density 5 ∧
        pt.temp = parsedOr r.temp 100000 := by
  intro rows
  induction rows with
  | nil => intro k x pt h; simp [plasmaLoop] at h
  | cons r rs ih =>
    intro k x pt h
    cases ht : r.time_tag with
    | none =>
      rw [plasmaLoop, ht] at h
      obtain ⟨r', hr', rest⟩ := ih k x pt h
      exact ⟨r', List.mem_cons_of_mem _ hr', rest⟩
    | some ts =>
      rw [plasmaLoop, ht] at h
      rcases List.mem_cons.mp h with heq | hmem
      · refine ⟨r, List.mem_cons_self _ _, ts, ht, ?_⟩
        rw [heq]
        exact ⟨rfl, rfl, rfl, rfl⟩
      · obtain ⟨r', hr', rest⟩ := ih _ _ pt hmem
        exact ⟨r', List.mem_cons_of_mem _ hr', rest⟩

/-- C2 counterexample: the magnetic-field series does NOT carry forward
the last known value.  With a real mag reading (bt = 7) at the first
plasma minute and no reading at the second, the second emitted point
has bt = 5 (the fixed miss default of `magMap.get(key) || {bt: 5, ...}`),
not the carried-forward 7 the claim requires. -/
theorem claim_aux_carry_counterexample :
    ((parseNOAAData exPlasma exMag exKp exXray).getD 0 dfltPoint).bt = 7 ∧
    ((parseNOAAData exPlasma exMag exKp exXray).getD 1 dfltPoint).bt = 5 ∧
    (5 : ℚ) ≠ 7 :=
  ⟨by decide, by decide, by norm_num⟩

/-- C2 (amended): the kp (index) and xray (flux) fields carry forward
the last observed auxiliary value on every exact-minute miss — the
emitted value at position `i` is exactly `carried` (the most recent
observation at or before `i`, else the domain default 2 / 1e-7), so
they never revert to the default once a value has been observed, for
any gap length; the magnetic-field fields, by contrast, reset to the
fixed default record {bx: 0, by: 0, bz: 0, bt: 5} on every miss of the
point's own minute key. -/
theorem claim_aux_carry_forward (plasma : List PlasmaRow) (mag : List MagRow)
    (kp : List KpRow) (xray : Option (List XrayRow)) (i : ℕ) (pt : TelemetryPoint)
    (h : (parseNOAAData plasma mag kp xray)[i]? = some pt) :
    pt.kp = carried (lookupMap (kpEntries kp)) 2 (validKeys (plasma.drop 1)) i ∧
    pt.xray =
      carried (lookupMap (xrayEntries xray)) (1 / 10000000) (validKeys (plasma.drop 1)) i ∧
    pt.bt =
      ((lookupMap (magEntries mag) ((validKeys (plasma.drop 1)).getD i "")).getD
        ⟨0, 0, 0, 5⟩).bt ∧
    pt.bz =
      ((lookupMap (magEntries mag) ((validKeys (plasma.drop 1)).getD i "")).getD
        ⟨0, 0, 0, 5⟩).bz ∧
    pt.bx =
      ((lookupMap (magEntries mag) ((validKeys (plasma.drop 1)).getD i "")).getD
        ⟨0, 0, 0, 5⟩).bx ∧
    pt.byv =
      ((lookupMap (magEntries mag) ((validKeys (plasma.drop 1)).getD i "")).getD
        ⟨0, 0, 0, 5⟩).byv :=
  plasmaLoop_carry (lookupMap (magEntries mag)) (lookupMap (kpEntries kp))
    (lookupMap (xrayEntries xray)) (plasma.drop 1) 2 (1 / 10000000) i pt h

theorem claim_aux_carry_forward_witness :
    ((parseNOAAData exPlasma exMag exKp exXray)[1]? =
      some ⟨"2025-02-01 00:01:30", 500, 4, 90000, 5, 0, 0, 0, 2, 1 / 10000000⟩) ∧
    ((⟨"2025-02-01 00:01:30", 500, 4, 90000, 5, 0, 0, 0, 2, 1 / 10000000⟩ :
        TelemetryPoint).kp =
      carried (lookupMap (kpEntries exKp)) 2 (validKeys (exPlasma.drop 1)) 1 ∧
     (⟨"2025-02-01 00:01:30", 500, 4, 90000, 5, 0, 0, 0, 2, 1 / 10000000⟩ :
        TelemetryPoint).xray =
      carried (lookupMap (xrayEntries exXray)) (1 / 10000000) (validKeys (exPlasma.drop 1)) 1 ∧
     (⟨"2025-02-01 00:01:30", 500, 4, 90000, 5, 0, 0, 0, 2, 1 / 10000000⟩ :
        TelemetryPoint).bt =
      ((lookupMap (magEntries exMag) ((validKeys (exPlasma.drop 1)).getD 1 "")).getD
        ⟨0, 0, 0, 5⟩).bt ∧
     (⟨"2025-02-01 00:01:30", 500, 4, 90000, 5, 0, 0, 0, 2, 1 / 10000000⟩ :
        TelemetryPoint).bz =
      ((lookupMap (magEntries exMag) ((validKeys (exPlasma.drop 1)).getD 1 "")).getD
        ⟨0, 0, 0, 5⟩).bz ∧
     (⟨"2025-02-01 00:01:30", 500, 4, 90000, 5, 0, 0, 0, 2, 1 / 10000000⟩ :
        TelemetryPoint).bx =
      ((lookupMap (magEntries exMag) ((validKeys (exPlasma.drop 1)).getD 1 "")).getD
        ⟨0, 0, 0, 5⟩).bx ∧
     (⟨"2025-02-01 00:01:30", 500, 4, 90000, 5, 0, 0, 0, 2, 1 / 10000000⟩ :
        TelemetryPoint).byv =
      ((lookupMap (magEntries exMag) ((validKeys (exPlasma.drop 1)).getD 1 "")).getD
        ⟨0, 0, 0, 5⟩).byv) :=
  ⟨rfl, claim_aux_carry_forward exPlasma exMag exKp exXray 1 _ rfl⟩

/-- C3 counterexample: a non-numeric speed cell does NOT parse to 0 —
`parseFloat(r[2]) || 400` substitutes the domain default 400, so the
emitted speed is 400, not 0. -/
theorem claim_parse_zero_counterexample :
    ((parseNOAAData exPlasmaBad exMag exKp exXray).getD 0 dfltPoint).speed = 400 ∧
    (400 : ℚ) ≠ 0 :=
  ⟨by decide, by norm_num⟩

/-- C3 (amended): a non-numeric or missing cell parses to a fixed
finite domain default — 0 for the magnetic-field cells (bx, by, bz,
bt) stored in the mag map, but 400 / 5 / 100000 for the plasma cells
(speed / density / temperature); the auxiliary kp and xray cells
follow the carry-forward rule.  Every emitted field of every
TelemetryPoint is one of these totally-defined rational values (the
`parsedOr` defaulting is applied before any value is stored or
emitted), so the Normalizer never emits NaN or undefined. -/
theorem claim_parse_defaults :
    (∀ (plasma : List PlasmaRow) (mag : List MagRow) (kp : List KpRow)
       (xray : Option (List XrayRow)) (pt : TelemetryPoint),
       pt ∈ parseNOAAData plasma mag kp xray →
       ∃ r ∈ plasma.drop 1, ∃ ts, r.time_tag = some ts ∧ pt.time = ts ∧
         pt.speed = parsedOr r.speed 400 ∧ pt.density = parsedOr r.density 5 ∧
         pt.temp = parsedOr r.temp 100000) ∧
    (∀ (mag : List MagRow) (key : String) (v : MagVal),
       lookupMap (magEntries mag) key = some v →
       ∃ r ∈ mag.drop 1, ∃ ts, r.time_tag = some ts ∧ key = ts.take 16 ∧
         v = ⟨parsedOr r.bx 0, parsedOr r.byv 0, parsedOr r.bz 0, parsedOr r.bt 0⟩) :=
  ⟨fun plasma _mag _kp _xray pt h =>
    plasmaLoop_fields _ _ _ (plasma.drop 1) 2 (1 / 10000000) pt h,
   magEntries_values⟩

theorem claim_parse_defaults_witness :
    ((⟨"2025-02-01 00:00:30", 400, 3, 100, 7, 3, 1, 2, 2, 1 / 10000000⟩ : TelemetryPoint) ∈
       parseNOAAData exPlasmaBad exMag exKp exXray ∧
     lookupMap (magEntries exMag) "2025-02-01 00:00" = some ⟨1, 2, 3, 7⟩) ∧
    ((∃ r ∈ exPlasmaBad.drop 1, ∃ ts, r.time_tag = some ts ∧
        (⟨"2025-02-01 00:00:30", 400, 3, 100, 7, 3, 1, 2, 2, 1 / 10000000⟩ :
          TelemetryPoint).time = ts ∧
        (⟨"2025-02-01 00:00:30", 400, 3, 100, 7, 3, 1, 2, 2, 1 / 10000000⟩ :
          TelemetryPoint).speed = parsedOr r.speed 400 ∧
        (⟨"2025-02-01 00:00:30", 400, 3, 100, 7, 3, 1, 2, 2, 1 / 10000000⟩ :
          TelemetryPoint).density = parsedOr r.density 5 ∧
        (⟨"2025-02-01 00:00:30", 400, 3, 100, 7, 3, 1, 2, 2, 1 / 10000000⟩ :
          TelemetryPoint).temp = parsedOr r.temp 100000) ∧
     (∃ r ∈ exMag.drop 1, ∃ ts, r.time_tag = some ts ∧
        "2025-02-01 00:00" = ts.take 16 ∧
        (⟨1, 2, 3, 7⟩ : MagVal) =
          ⟨parsedOr r.bx 0, parsedOr r.byv 0, parsedOr r.bz 0, parsedOr r.bt 0⟩)) :=
  ⟨⟨by
      rw [show parseNOAAData exPlasmaBad exMag exKp exXray =
        [(⟨"2025-02-01 00:00:30", 400, 3, 100, 7, 3, 1, 2, 2, 1 / 10000000⟩ :
          TelemetryPoint)] from rfl]
      exact List.mem_cons_self _ _, rfl⟩,
   ⟨claim_parse_defaults.1 exPlasmaBad exMag exKp exXray _
      (by
        rw [show parseNOAAData exPlasmaBad exMag exKp exXray =
          [(⟨"2025-02-01 00:00:30", 400, 3, 100, 7, 3, 1, 2, 2, 1 / 10000000⟩ :
            TelemetryPoint)] from rfl]
        exact List.mem_cons_self _ _),
    claim_parse_defaults.2 exMag "2025-02-01 00:00" _ rfl⟩⟩
